import Mathlib

/-!
Shallow embedding of the core of `fred_rss_tui` (files `src/app.rs`,
`src/network.rs`): the selectable-list navigation, the shared application
state, the dispatch channel, and the background network worker.

Conventions of the embedding:
* Rust `usize` values are modelled as `Nat`; where the source performs
  unchecked `usize` arithmetic that can wrap in release builds, the wrap
  is made explicit with `% USIZE` (`USIZE = 2 ^ 64`).
* Where the source can panic (an `unwrap()` on a parse error, or a
  `usize` subtraction that overflows and aborts in debug builds), the
  embedded operation returns `Option`, with `none` standing for the panic.
* `tui::widgets::ListState` is modelled by its `selected` field only; its
  scroll offset is pure rendering state that no embedded operation reads.
* The feed parser (`rss::Channel::read_from`) and the HTTP transport
  (`reqwest`) are external collaborators; a worker run is parametrised by
  a `FetchOutcome` describing what they returned.
-/

namespace FredRss

/-- Fixed modulus of Rust `usize` arithmetic (64-bit target). -/
def USIZE : Nat := 2 ^ 64

/-- Model of `tui::widgets::ListState`: the cursor of a stateful list.
`ListState::default()` has nothing selected. -/
structure ListState where
  selected : Option Nat
deriving DecidableEq, Repr

/-- `ListState::default()`. -/
def ListState.default : ListState := { selected := none }

/-- `StatefulList<T>` from `src/app.rs`: items plus a `ListState` cursor. -/
structure StatefulList (α : Type) where
  state : ListState
  items : List α
deriving DecidableEq, Repr

namespace StatefulList

/-- `StatefulList::with_items` from `src/app.rs`: wraps the items with a
default (unselected) `ListState`. -/
def with_items {α : Type} (items : List α) : StatefulList α :=
  { state := ListState.default, items := items }

/-- `StatefulList::next` from `src/app.rs` lines 41-53.  With a selection
`Some i` the source compares `i >= self.items.len() - 1`; on an empty list
that subtraction overflows `usize` (aborting in debug builds), which the
embedding renders as `none`.  With no selection the source selects index 0
without looking at the length. -/
def next {α : Type} (l : StatefulList α) : Option (StatefulList α) :=
  match l.state.selected with
  | some i =>
      if l.items.length = 0 then
        none
      else
        let j := if l.items.length - 1 ≤ i then 0 else i + 1
        some { l with state := { selected := some j } }
  | none => some { l with state := { selected := some 0 } }

/-- `StatefulList::previous` from `src/app.rs` lines 55-67.  With selection
`Some 0` the source computes `self.items.len() - 1`, which overflows on an
empty list (rendered as `none`); with no selection it selects index 0. -/
def previous {α : Type} (l : StatefulList α) : Option (StatefulList α) :=
  match l.state.selected with
  | some i =>
      if i = 0 then
        if l.items.length = 0 then
          none
        else
          some { l with state := { selected := some (l.items.length - 1) } }
      else
        some { l with state := { selected := some (i - 1) } }
  | none => some { l with state := { selected := some 0 } }

/-- `StatefulList::unselect` from `src/app.rs` lines 69-71. -/
def unselect {α : Type} (l : StatefulList α) : StatefulList α :=
  { l with state := { selected := none } }

end StatefulList

/-- Model of `rss::Item`: only the fields the program reads. -/
structure Item where
  title : Option String
  description : Option String
deriving DecidableEq, Repr

/-- Model of `rss::Channel`: a parsed feed document. -/
structure Channel where
  title : String
  items : List Item
deriving DecidableEq, Repr

/-- `Feed` from `src/app.rs` lines 16-21. -/
structure Feed where
  channel : Option Channel
  name : String
  url : String
deriving DecidableEq, Repr

/-- `Feed::new` from `src/app.rs` lines 24-30. -/
def Feed.new (name url : String) : Feed :=
  { name := name, url := url, channel := none }

/-- `IoEvent` from `src/network.rs` lines 7-9. -/
inductive IoEvent
  | GetChannel (feed : Feed)
deriving DecidableEq, Repr

/-- `SelectedView` from `src/app.rs` lines 74-77. -/
inductive SelectedView
  | FeedView
  | NewsView
deriving DecidableEq, Repr

/-- `App` from `src/app.rs` lines 79-88.  The `io_tx : Option<Sender>` field
is modelled by whether the sender is present; the channel itself lives in a
separate `ChannelState` threaded through `dispatch`. -/
structure App where
  feed_data : StatefulList Feed
  news_data : Option (StatefulList Item)
  selected_feed : Option Feed
  io_tx : Bool
  is_loading : Bool
  selected_view : SelectedView
  news_index : Nat
  stacking : Nat
deriving DecidableEq, Repr

/-- The `std::sync::mpsc` channel created in `main`: the FIFO queue of
pending requests, plus whether the consuming worker thread has gone away
(the only condition under which `Sender::send` fails). -/
structure ChannelState where
  queue : List IoEvent
  consumerGone : Bool
deriving DecidableEq, Repr

namespace App

/-- `App::new` from `src/app.rs` lines 91-102 (the `io_tx` argument is
present, so the flag is `true`). -/
def new (data : List Feed) : App :=
  { feed_data := StatefulList.with_items data
    news_data := none
    selected_feed := none
    io_tx := true
    is_loading := false
    selected_view := SelectedView.FeedView
    news_index := 0
    stacking := 0 }

/-- `App::dispatch` from `src/app.rs` lines 104-112: set `is_loading`,
then try to send on the channel; a failed send (consumer gone) prints a
message and clears `is_loading` again — it is an ordinary return, never a
propagated error, so the embedding is a total function. -/
def dispatch (app : App) (action : IoEvent) (ch : ChannelState) :
    App × ChannelState :=
  let app1 := { app with is_loading := true }
  if app1.io_tx then
    if ch.consumerGone then
      ({ app1 with is_loading := false }, ch)
    else
      (app1, { ch with queue := ch.queue ++ [action] })
  else
    (app1, ch)

/-- `App::switch_view` from `src/app.rs` lines 114-119. -/
def switch_view (app : App) : App :=
  match app.selected_view with
  | SelectedView.FeedView => { app with selected_view := SelectedView.NewsView }
  | SelectedView.NewsView => { app with selected_view := SelectedView.FeedView }

/-- `App::get_channel` from `src/app.rs` lines 121-123. -/
def get_channel (app : App) (feed : Feed) (ch : ChannelState) :
    App × ChannelState :=
  app.dispatch (IoEvent.GetChannel feed) ch

/-- `App::set_feed` from `src/app.rs` lines 125-127: replace `news_data`
with the channel items wrapped as a fresh `StatefulList` (default cursor). -/
def set_feed (app : App) (channel : Channel) : App :=
  { app with news_data := some (StatefulList.with_items channel.items) }

/-- `App::back` from `src/app.rs` lines 137-140: reset `news_index` and
decrement `stacking` with no guard.  Rust `usize` subtraction wraps modulo
`2 ^ 64` in release builds (and aborts in debug builds); the release wrap
is written out explicitly. -/
def back (app : App) : App :=
  { app with
      news_index := 0
      stacking := (app.stacking + (USIZE - 1)) % USIZE }

/-- `App::view_news_under_cursor` from `src/app.rs` lines 142-153:
always increment `stacking`; then only when a news list is loaded, record
its cursor (or 0 when unselected) into `news_index`. -/
def view_news_under_cursor (app : App) : App :=
  let app1 := { app with stacking := (app.stacking + 1) % USIZE }
  match app1.news_data with
  | some data =>
      match data.state.selected with
      | some i => { app1 with news_index := i }
      | none => { app1 with news_index := 0 }
  | none => app1

end App

/-- What the external fetch pipeline produced for one request:
`reqwest::get` failed, `Response::bytes` failed, or bytes arrived and
`Channel::read_from` returned the given parse result. -/
inductive FetchOutcome
  | networkError
  | bytesError
  | ok (parsed : Option Channel)
deriving DecidableEq, Repr

namespace Network

/-- `Network::get_channel` from `src/network.rs` lines 30-45.  Network and
byte-read errors are silently discarded (`Err(_e) => {}`); on received
bytes the source calls `channel.unwrap()`, so a parse failure panics the
worker (`none`); on a successful parse it replaces the news data via
`App::set_feed` and records the fetched feed. -/
def get_channel (outcome : FetchOutcome) (feed : Feed) (app : App) :
    Option App :=
  match outcome with
  | FetchOutcome.networkError => some app
  | FetchOutcome.bytesError => some app
  | FetchOutcome.ok parsed =>
      match parsed with
      | none => none
      | some channel =>
          some { app.set_feed channel
                   with selected_feed := some (Feed.new feed.name feed.url) }

/-- `Network::handle_network_event` from `src/network.rs` lines 20-28:
run `get_channel` for the event's feed, then lock the app and clear
`is_loading`.  If `get_channel` panicked, the clearing line is never
reached. -/
def handle_network_event (outcome : FetchOutcome) (event : IoEvent)
    (app : App) : Option App :=
  match event with
  | IoEvent.GetChannel feed =>
      match Network.get_channel outcome feed app with
      | none => none
      | some app1 => some { app1 with is_loading := false }

end Network

/-- Iterated `StatefulList.next`, propagating a panic (`none`) if any step
panics. -/
def nextIter {α : Type} : Nat → StatefulList α → Option (StatefulList α)
  | 0, l => some l
  | n + 1, l => (StatefulList.next l).bind (nextIter n)

/-- Helper: on a non-empty list with an in-range selection, `next` moves the
cursor to the successor modulo the length. -/
theorem StatefulList.next_selected {α : Type} (items : List α) (i : Nat)
    (h : i < items.length) :
    StatefulList.next { state := { selected := some i }, items := items } =
      some { state := { selected := some ((i + 1) % items.length) },
             items := items } := by
  have hlen : ¬ items.length = 0 := by omega
  by_cases hc : items.length - 1 ≤ i
  · have hi : i + 1 = items.length := by omega
    simp [StatefulList.next, hlen, hc, hi, Nat.mod_self]
  · have hlt : i + 1 < items.length := by omega
    simp [StatefulList.next, hlen, hc, Nat.mod_eq_of_lt hlt]

/-- Helper: iterating `next` from an in-range selection `some i` for `k`
steps never panics and lands on `some ((i + k) % length)`. -/
theorem nextIter_selected {α : Type} (items : List α) (k : Nat) :
    ∀ i, i < items.length →
      nextIter k { state := { selected := some i }, items := items } =
        some { state := { selected := some ((i + k) % items.length) },
               items := items } := by
  induction k with
  | zero =>
      intro i h
      simp [nextIter, Nat.mod_eq_of_lt h]
  | succ k ih =>
      intro i h
      have hlen : 0 < items.length := by omega
      have hstep := StatefulList.next_selected items i h
      have hrec := ih ((i + 1) % items.length) (Nat.mod_lt _ hlen)
      have hmod : ((i + 1) % items.length + k) % items.length =
          (i + (k + 1)) % items.length := by
        rw [Nat.mod_add_mod]
        congr 1
        omega
      simp only [nextIter, hstep, Option.some_bind, hrec, hmod]

/-- C2 counterexample: on the empty list with nothing selected, `next` does
not leave the cursor `None` — it selects index 0. -/
theorem C2_counterexample :
    ¬ ((StatefulList.next (StatefulList.with_items ([] : List Nat))).map
          (fun l => l.state.selected) = some none) := by
  decide

/-- C2 (amended): on the empty list with nothing selected, `next` and
`previous` do not panic, but they set the cursor to `some 0` (an
out-of-range selection) instead of leaving it `None`; a further `next` or
`previous` call from that state underflows the `len() - 1` subtraction. -/
theorem C2_empty_list_behavior {α : Type} :
    (StatefulList.next (StatefulList.with_items ([] : List α)) =
        some { state := { selected := some 0 }, items := [] } ∧
      StatefulList.previous (StatefulList.with_items ([] : List α)) =
        some { state := { selected := some 0 }, items := [] }) ∧
    (StatefulList.next { state := { selected := some 0 },
                         items := ([] : List α) } = none ∧
      StatefulList.previous { state := { selected := some 0 },
                              items := ([] : List α) } = none) :=
  ⟨⟨rfl, rfl⟩, rfl, rfl⟩

/-- C4: on a non-empty list, `next` from an empty cursor selects index 0,
and from an in-range cursor `some i` selects `(i + 1) % len`, wrapping from
the last index to the first. -/
theorem C4_next_nonempty {α : Type} (l : StatefulList α) (hne : l.items ≠ []) :
    (l.state.selected = none →
        StatefulList.next l = some { l with state := { selected := some 0 } }) ∧
    (∀ i, l.state.selected = some i → i < l.items.length →
        StatefulList.next l =
          some { l with
                   state := { selected := some ((i + 1) % l.items.length) } }) := by
  obtain ⟨⟨sel⟩, items⟩ := l
  constructor
  · intro h
    cases sel with
    | none => rfl
    | some i => exact Option.noConfusion h
  · intro i hi hlt
    cases sel with
    | none => exact Option.noConfusion hi
    | some j =>
        cases Option.some.inj hi
        exact StatefulList.next_selected items i hlt

/-- C4 witness: spec scenario C — five items, cursor on the last index 4,
`next` wraps to index 0. -/
theorem C4_next_nonempty_witness :
    StatefulList.next { state := { selected := some 4 },
                        items := ([0, 1, 2, 3, 4] : List Nat) } =
      some { state := { selected := some ((4 + 1) % 5) },
             items := ([0, 1, 2, 3, 4] : List Nat) } :=
  (C4_next_nonempty
      { state := { selected := some 4 }, items := ([0, 1, 2, 3, 4] : List Nat) }
      (by decide)).2 4 rfl (by decide)

/-- C8 counterexample: starting from cursor `None` on a two-element list,
two applications of `next` land on `some 1`, not back on `None`, so the
cyclic invariant fails for the starting cursor value `None`. -/
theorem C8_counterexample :
    ¬ ((nextIter 2 (StatefulList.with_items ([0, 1] : List Nat))).map
          (fun l => l.state.selected) =
        some (StatefulList.with_items ([0, 1] : List Nat)).state.selected) := by
  decide

/-- C8 (amended): on a non-empty list, `next` applied `len(items)` times
from any in-range selected cursor `some i` returns to `some i` (from the
unselected cursor `None` it instead ends on `some (len - 1)`). -/
theorem C8_cyclic {α : Type} (items : List α) (i : Nat)
    (h : i < items.length) :
    nextIter items.length { state := { selected := some i }, items := items } =
      some { state := { selected := some i }, items := items } := by
  have hmod : (i + items.length) % items.length = i := by
    rw [Nat.add_mod_right]
    exact Nat.mod_eq_of_lt h
  rw [nextIter_selected items items.length i h, hmod]

/-- C8 witness: five items, cursor at index 2, five `next` steps return to
index 2. -/
theorem C8_cyclic_witness :
    nextIter 5 { state := { selected := some 2 },
                 items := ([0, 1, 2, 3, 4] : List Nat) } =
      some { state := { selected := some 2 },
             items := ([0, 1, 2, 3, 4] : List Nat) } :=
  C8_cyclic ([0, 1, 2, 3, 4] : List Nat) 2 (by decide)

/-- C9: `previous` with an empty cursor selects index 0 — the same index as
`next` from `None` — not the last index. -/
theorem C9_previous_unselected {α : Type} (l : StatefulList α)
    (h : l.state.selected = none) :
    StatefulList.previous l = some { l with state := { selected := some 0 } } := by
  obtain ⟨⟨sel⟩, items⟩ := l
  cases sel with
  | none => rfl
  | some i => exact Option.noConfusion h

/-- An example feed source, as in spec scenario A. -/
def exampleFeed : Feed := Feed.new "Example" "http://x/feed"

/-- An example application state right after startup with one configured
feed (drill depth 0, nothing loaded, not loading). -/
def exampleApp : App := App.new [exampleFeed]

/-- An example parsed feed document with three items. -/
def exampleChannel : Channel :=
  { title := "Example feed"
    items := [ { title := some "a", description := some "first" },
               { title := some "b", description := none },
               { title := some "c", description := some "third" } ] }

/-- C1 counterexample: when the response bytes arrive but the parse fails,
`channel.unwrap()` panics the worker before the `is_loading = false` line,
so no post-state with the flag cleared exists for that request. -/
theorem C1_counterexample :
    ¬ ∃ app1,
        Network.handle_network_event (FetchOutcome.ok none)
            (IoEvent.GetChannel exampleFeed) exampleApp = some app1 ∧
        app1.is_loading = false := by
  rintro ⟨app1, h, -⟩
  exact Option.noConfusion h

/-- C1 (amended): for every request whose outcome is a success, a network
error, or a byte-read error — every outcome except a parse failure — the
worker finishes without panicking, the final state has `is_loading = false`,
and the fetch phase itself never touches `is_loading`, so the flag is
cleared exactly once, by the single assignment after the fetch. -/
theorem C1_clears_loading_once (outcome : FetchOutcome) (feed : Feed)
    (app : App) (h : outcome ≠ FetchOutcome.ok none) :
    ∃ app1,
      Network.handle_network_event outcome (IoEvent.GetChannel feed) app =
        some app1 ∧
      app1.is_loading = false ∧
      (Network.get_channel outcome feed app).map (fun a => a.is_loading) =
        some app.is_loading := by
  cases outcome with
  | networkError => exact ⟨{ app with is_loading := false }, rfl, rfl, rfl⟩
  | bytesError => exact ⟨{ app with is_loading := false }, rfl, rfl, rfl⟩
  | ok parsed =>
      cases parsed with
      | none => exact absurd rfl h
      | some channel => exact ⟨_, rfl, rfl, rfl⟩

/-- C1 witness: a network-error outcome on the example state — the worker
returns normally with `is_loading` cleared. -/
theorem C1_clears_loading_once_witness :
    ∃ app1,
      Network.handle_network_event FetchOutcome.networkError
          (IoEvent.GetChannel exampleFeed) exampleApp = some app1 ∧
      app1.is_loading = false ∧
      (Network.get_channel FetchOutcome.networkError exampleFeed
          exampleApp).map (fun a => a.is_loading) =
        some exampleApp.is_loading :=
  C1_clears_loading_once FetchOutcome.networkError exampleFeed exampleApp
    (by decide)

/-- C3: `App::back` on a state at drill depth 0 silently wraps the `usize`
depth counter around to `2 ^ 64 - 1` (and aborts in debug builds); there is
no guard, disabled action, or explicit error in `back` itself. -/
theorem C3_back_underflows :
    (App.back exampleApp).stacking = USIZE - 1 ∧ exampleApp.stacking = 0 := by
  constructor
  · decide
  · rfl

/-- C5: `dispatch` sets `is_loading` and enqueues without performing any
fetch work; when the send fails because the consumer is gone, it clears its
own `is_loading` speculation, leaves the channel as it was, and returns
normally (the embedding is a total function — no process-ending error). -/
theorem C5_dispatch (app : App) (action : IoEvent) (ch : ChannelState)
    (h : app.io_tx = true) :
    (ch.consumerGone = false →
        (app.dispatch action ch).1.is_loading = true ∧
        (app.dispatch action ch).2.queue = ch.queue ++ [action]) ∧
    (ch.consumerGone = true →
        (app.dispatch action ch).1.is_loading = false ∧
        (app.dispatch action ch).2 = ch) := by
  constructor
  · intro hc
    constructor
    · simp [App.dispatch, h, hc]
    · simp [App.dispatch, h, hc]
  · intro hc
    constructor
    · simp [App.dispatch, h, hc]
    · simp [App.dispatch, h, hc]

/-- C5 witness: dispatching on the example state with the consumer gone —
`is_loading` ends up cleared and the channel is untouched. -/
theorem C5_dispatch_witness :
    (exampleApp.dispatch (IoEvent.GetChannel exampleFeed)
        { queue := [], consumerGone := true }).1.is_loading = false ∧
    (exampleApp.dispatch (IoEvent.GetChannel exampleFeed)
        { queue := [], consumerGone := true }).2 =
      { queue := [], consumerGone := true } :=
  (C5_dispatch exampleApp (IoEvent.GetChannel exampleFeed)
      { queue := [], consumerGone := true } rfl).2 rfl

/-- C6: on a successful fetch the worker replaces the loaded document in
full with the new channel items wrapped as a fresh `StatefulList` whose
cursor is `None`, records the fetched `FeedSource`, and clears
`is_loading`; with a three-item document the loaded list has length 3. -/
theorem C6_success_replaces (feed : Feed) (channel : Channel) (app : App)
    (h : channel.items.length = 3) :
    ∃ app1,
      Network.handle_network_event (FetchOutcome.ok (some channel))
          (IoEvent.GetChannel feed) app = some app1 ∧
      app1.news_data = some (StatefulList.with_items channel.items) ∧
      (app1.news_data.map fun d => d.state.selected) = some none ∧
      (app1.news_data.map fun d => d.items.length) = some 3 ∧
      app1.selected_feed = some (Feed.new feed.name feed.url) ∧
      app1.is_loading = false := by
  refine ⟨_, rfl, rfl, rfl, ?_, rfl, rfl⟩
  simp [App.set_feed, StatefulList.with_items, h]

/-- C6 witness: spec scenario A — one configured feed, a three-item parsed
document; after the worker completes, the loaded list has three items,
cursor `None`, the source recorded, and `is_loading` is false. -/
theorem C6_success_replaces_witness :
    ∃ app1,
      Network.handle_network_event (FetchOutcome.ok (some exampleChannel))
          (IoEvent.GetChannel exampleFeed) exampleApp = some app1 ∧
      app1.news_data = some (StatefulList.with_items exampleChannel.items) ∧
      (app1.news_data.map fun d => d.state.selected) = some none ∧
      (app1.news_data.map fun d => d.items.length) = some 3 ∧
      app1.selected_feed = some (Feed.new exampleFeed.name exampleFeed.url) ∧
      app1.is_loading = false :=
  C6_success_replaces exampleFeed exampleChannel exampleApp rfl

/-- C7: on a network-error outcome the worker leaves `news_data` and
`selected_feed` exactly as they were and finishes with `is_loading`
cleared. -/
theorem C7_network_error_unchanged (feed : Feed) (app : App) :
    ∃ app1,
      Network.handle_network_event FetchOutcome.networkError
          (IoEvent.GetChannel feed) app = some app1 ∧
      app1.news_data = app.news_data ∧
      app1.selected_feed = app.selected_feed ∧
      app1.is_loading = false :=
  ⟨{ app with is_loading := false }, rfl, rfl, rfl, rfl⟩

/-- C10: `view_news_under_cursor` with no loaded document still increments
the drill depth by one and leaves the remembered item index (and every
other field) unchanged. -/
theorem C10_drill_without_data (app : App) (h : app.news_data = none)
    (h2 : app.stacking + 1 < USIZE) :
    app.view_news_under_cursor = { app with stacking := app.stacking + 1 } ∧
    (app.view_news_under_cursor).news_index = app.news_index := by
  have hmod : (app.stacking + 1) % USIZE = app.stacking + 1 :=
    Nat.mod_eq_of_lt h2
  have hmain :
      app.view_news_under_cursor = { app with stacking := app.stacking + 1 } := by
    simp [App.view_news_under_cursor, h, hmod]
  exact ⟨hmain, by rw [hmain]⟩

/-- C10 witness: the fresh startup state has no loaded document; activating
in the item-list view moves the drill depth from 0 to 1 and keeps
`news_index` at its old value. -/
theorem C10_drill_without_data_witness :
    exampleApp.view_news_under_cursor =
      { exampleApp with stacking := exampleApp.stacking + 1 } ∧
    (exampleApp.view_news_under_cursor).news_index = exampleApp.news_index :=
  C10_drill_without_data exampleApp rfl (by decide)

/-- C9 witness: a three-element list with no selection; `previous` selects
index 0, not the last index 2. -/
theorem C9_previous_unselected_witness :
    StatefulList.previous { state := { selected := none },
                            items := ([10, 20, 30] : List Nat) } =
      some { state := { selected := some 0 },
             items := ([10, 20, 30] : List Nat) } :=
  C9_previous_unselected
    { state := { selected := none }, items := ([10, 20, 30] : List Nat) } rfl

end FredRss
